import Mathlib

/-!
Verification development for the iTunes search backend
(`src/backend/routes/search.js`): a shallow embedding of the
parameter validator, the upstream URL builder, the response
normalizer and the request handler, together with theorems that
check the documented behaviour of each component.

Conventions of the embedding:
* a JavaScript value that may be `undefined` is an `Option`;
* JavaScript string truthiness is "not the empty string",
  number truthiness is "not zero" (the numeric fields that the
  routes touch are modelled as integers, which covers every value
  the claims exercise; `NaN` never reaches these code paths);
* the runtime `Date` facilities (`new Date(s)` parsing and
  `toLocaleDateString`) are an external collaborator and are
  modelled as an explicit environment of functions.
-/

namespace ItunesSearch

/-! ### JavaScript primitives used by the routes -/

/-- Whitespace as the `String.prototype.trim` / `parseInt` skip set
(ECMAScript WhiteSpace and LineTerminator code points). -/
def jsIsWhitespace (c : Char) : Bool :=
  [0x9, 0xA, 0xB, 0xC, 0xD, 0x20, 0xA0, 0x1680, 0x2028, 0x2029,
    0x202F, 0x205F, 0x3000, 0xFEFF].contains c.toNat
  || (0x2000 ≤ c.toNat && c.toNat ≤ 0x200A)

/-- `String.prototype.trim`. -/
def jsTrim (s : String) : String :=
  (((s.toList.dropWhile jsIsWhitespace).reverse.dropWhile jsIsWhitespace).reverse).asString

/-- String truthiness filter: a present, non-empty string survives. -/
def jsTruthyS (a : Option String) : Option String :=
  match a with
  | some s => if s = "" then none else some s
  | none => none

/-- `a || b` for a possibly-undefined string `a` and fallback value `b`. -/
def jsOrS (a b : Option String) : Option String :=
  match jsTruthyS a with
  | some s => some s
  | none => b

/-- `a || d` for a possibly-undefined string `a` and a sure default `d`. -/
def jsOrDefault (a : Option String) (d : String) : String :=
  (jsTruthyS a).getD d

/-- Number truthiness filter: a present, non-zero number survives. -/
def jsTruthyNum (a : Option Int) : Option Int :=
  match a with
  | some n => if n = 0 then none else some n
  | none => none

/-- Decimal digit value. -/
def decDigitVal (c : Char) : Option Nat :=
  if '0' ≤ c ∧ c ≤ '9' then some (c.toNat - 48) else none

/-- Hexadecimal digit value. -/
def hexDigitVal (c : Char) : Option Nat :=
  if '0' ≤ c ∧ c ≤ '9' then some (c.toNat - 48)
  else if 'a' ≤ c ∧ c ≤ 'f' then some (c.toNat - 87)
  else if 'A' ≤ c ∧ c ≤ 'F' then some (c.toNat - 55)
  else none

/-- Accumulate the longest leading run of digits; `none` when the run
is empty (the `NaN` outcome of `parseInt`). -/
def parseDigitsGo (dig : Char → Option Nat) (base : Nat) :
    List Char → Option Nat → Option Nat
  | [], acc => acc
  | c :: rest, acc =>
    match dig c with
    | some d => parseDigitsGo dig base rest (some (acc.getD 0 * base + d))
    | none => acc

/-- `parseInt(s)` with no explicit radix: skip whitespace, read an
optional sign, honour a `0x`/`0X` hexadecimal marker, then take the
longest leading digit run; `none` models `NaN`. -/
def jsParseInt (s : String) : Option Int :=
  let l := s.toList.dropWhile jsIsWhitespace
  let signAndRest : Int × List Char :=
    match l with
    | '-' :: rest => (-1, rest)
    | '+' :: rest => (1, rest)
    | _ => (1, l)
  let afterSign := signAndRest.2
  let parsed : Option Nat :=
    match afterSign with
    | '0' :: 'x' :: rest => parseDigitsGo hexDigitVal 16 rest none
    | '0' :: 'X' :: rest => parseDigitsGo hexDigitVal 16 rest none
    | _ => parseDigitsGo decDigitVal 10 afterSign none
  match parsed with
  | some n => some (signAndRest.1 * n)
  | none => none

/-- Replace the first occurrence of `pat` in a character list
(`String.prototype.replace` with a string pattern replaces only the
first occurrence; the replacement strings in the source contain no
dollar patterns). -/
def rfAux (pat rep : List Char) : List Char → List Char
  | [] => if pat.isEmpty then rep else []
  | c :: rest =>
    if pat.isPrefixOf (c :: rest) then rep ++ (c :: rest).drop pat.length
    else c :: rfAux pat rep rest

/-- `s.replace(pat, rep)` for string arguments: first occurrence only. -/
def jsReplaceFirst (s pat rep : String) : String :=
  (rfAux pat.toList rep.toList s.toList).asString

/-- UTF-8 byte sequence of one code point. -/
def utf8Bytes (c : Char) : List Nat :=
  let n := c.toNat
  if n < 0x80 then [n]
  else if n < 0x800 then [0xC0 + n / 0x40, 0x80 + n % 0x40]
  else if n < 0x10000 then
    [0xE0 + n / 0x1000, 0x80 + (n / 0x40) % 0x40, 0x80 + n % 0x40]
  else
    [0xF0 + n / 0x40000, 0x80 + (n / 0x1000) % 0x40,
      0x80 + (n / 0x40) % 0x40, 0x80 + n % 0x40]

/-- Uppercase hexadecimal digit for a value below 16. -/
def hexUpper (n : Nat) : Char :=
  if n < 10 then Char.ofNat (48 + n) else Char.ofNat (55 + n)

/-- One byte of `application/x-www-form-urlencoded` output: the
unreserved bytes pass through, space becomes `+`, everything else is
percent-escaped with uppercase hex. -/
def formEncodeByte (n : Nat) : String :=
  if (0x30 ≤ n ∧ n ≤ 0x39) ∨ (0x41 ≤ n ∧ n ≤ 0x5A) ∨ (0x61 ≤ n ∧ n ≤ 0x7A)
      ∨ n = 0x2A ∨ n = 0x2D ∨ n = 0x2E ∨ n = 0x5F then
    String.singleton (Char.ofNat n)
  else if n = 0x20 then "+"
  else
    "%" ++ String.singleton (hexUpper (n / 16)) ++ String.singleton (hexUpper (n % 16))

/-- `URLSearchParams` serialization of one component. -/
def formEncode (s : String) : String :=
  String.join (s.toList.map (fun c => String.join ((utf8Bytes c).map formEncodeByte)))

/-- `URLSearchParams.toString()` over the appended key/value pairs. -/
def urlSearchParamsToString (ps : List (String × String)) : String :=
  String.intercalate "&" (ps.map (fun kv => formEncode kv.1 ++ "=" ++ formEncode kv.2))

/-! ### Constants of `search.js` -/

def ITUNES_BASE_URL : String := "https://itunes.apple.com"

def ITUNES_SEARCH_ENDPOINT : String := ITUNES_BASE_URL ++ "/search"

def VALID_MEDIA_TYPES : List String :=
  ["all", "movie", "podcast", "music", "musicVideo",
    "audiobook", "shortFilm", "tvShow", "software", "ebook"]

/-- `MEDIA_ENTITIES[m] || []`: the entity lists keyed by media type,
with the empty list for any key the object does not define. -/
def MEDIA_ENTITIES (m : String) : List String :=
  if m = "movie" then ["movieArtist", "movie"]
  else if m = "podcast" then ["podcastAuthor", "podcast"]
  else if m = "music" then
    ["musicArtist", "musicTrack", "album", "musicVideo", "mix", "song"]
  else if m = "musicVideo" then ["musicArtist", "musicVideo"]
  else if m = "audiobook" then ["audiobookAuthor", "audiobook"]
  else if m = "shortFilm" then ["shortFilmArtist", "shortFilm"]
  else if m = "tvShow" then ["tvEpisode", "tvSeason"]
  else if m = "software" then ["software", "iPadSoftware", "macSoftware"]
  else if m = "ebook" then ["ebook"]
  else if m = "all" then
    ["movie", "album", "allArtist", "podcast", "musicVideo", "mix",
      "audiobook", "tvSeason", "allTrack"]
  else []

/-! ### Request parameters and the validator -/

/-- The six query parameters the handler extracts from the request. -/
structure SearchParams where
  term : Option String := none
  media : Option String := none
  limit : Option String := none
  country : Option String := none
  entity : Option String := none
  explicit : Option String := none
deriving DecidableEq

def termMsg : String := "Search term is required and must be a non-empty string"

def mediaMsg : String :=
  "Invalid media type. Valid types: " ++ String.intercalate ", " VALID_MEDIA_TYPES

def limitMsg : String := "Limit must be a number between 1 and 200"

def countryMsg : String :=
  "Country must be a valid 2-letter country code (e.g., US, CA, GB)"

/-- `!params.term || typeof params.term !== 'string' || params.term.trim().length === 0`
(the `typeof` test never fires for a string-or-undefined input). -/
def termViolated (p : SearchParams) : Bool :=
  match p.term with
  | none => true
  | some s => s == "" || (jsTrim s).length == 0

/-- `params.media && !VALID_MEDIA_TYPES.includes(params.media)`. -/
def mediaViolated (p : SearchParams) : Bool :=
  match p.media with
  | none => false
  | some m => m != "" && !(VALID_MEDIA_TYPES.contains m)

/-- `params.limit` truthy and `isNaN(limit) || limit < 1 || limit > 200`
after `const limit = parseInt(params.limit)`. -/
def limitViolated (p : SearchParams) : Bool :=
  match p.limit with
  | none => false
  | some s =>
    s != "" &&
      (match jsParseInt s with
       | none => true
       | some n => decide (n < 1) || decide (200 < n))

/-- The test `/^[A-Z]{2}$/.test(c)`. -/
def countryRegexTest (c : String) : Bool :=
  c.length == 2 && c.toList.all (fun ch => decide ('A' ≤ ch) && decide (ch ≤ 'Z'))

/-- `params.country && !/^[A-Z]{2}$/.test(params.country)`. -/
def countryViolated (p : SearchParams) : Bool :=
  match p.country with
  | none => false
  | some c => c != "" && !(countryRegexTest c)

/-- The `errors` array of `validateSearchParams`: one message per
violated rule, pushed in source order. -/
def validationErrors (p : SearchParams) : List String :=
  (if termViolated p then [termMsg] else [])
    ++ (if mediaViolated p then [mediaMsg] else [])
    ++ (if limitViolated p then [limitMsg] else [])
    ++ (if countryViolated p then [countryMsg] else [])

/-- `validateSearchParams`: the accumulated error messages together
with `isValid: errors.length === 0`. -/
def validateSearchParams (p : SearchParams) : Bool × List String :=
  ((validationErrors p).length == 0, validationErrors p)

/-! ### The upstream query builder -/

/-- The five parameters `buildItunesUrl` always appends, in source
order, with the source defaults. -/
def baseParams (p : SearchParams) : List (String × String) :=
  [("term", jsTrim (p.term.getD "")),
    ("media", jsOrDefault p.media "all"),
    ("limit", jsOrDefault p.limit "50"),
    ("country", jsOrDefault p.country "US"),
    ("explicit", jsOrDefault p.explicit "Yes")]

/-- The full appended parameter list: `entity` is appended only when
it is truthy and a member of `MEDIA_ENTITIES[params.media || 'all'] || []`. -/
def buildItunesParams (p : SearchParams) : List (String × String) :=
  baseParams p ++
    (match jsTruthyS p.entity with
     | some e =>
       if (MEDIA_ENTITIES (jsOrDefault p.media "all")).contains e then
         [("entity", e)]
       else []
     | none => [])

/-- `buildItunesUrl`: the search endpoint with the serialized
parameter list as its query string. -/
def buildItunesUrl (p : SearchParams) : String :=
  ITUNES_SEARCH_ENDPOINT ++ "?" ++ urlSearchParamsToString (buildItunesParams p)

/-! ### The response normalizer -/

/-- The runtime date facilities the normalizer delegates to:
`parseDate` models the `Date` constructor on a string (`none` is the
Invalid Date outcome) and `fmtDate` models `toLocaleDateString` on a
valid date value. -/
structure DateEnv where
  parseDate : String → Option Int
  fmtDate : Int → String

/-- `new Date(s).toLocaleDateString()`: a valid date is formatted by
the locale, an invalid one prints as the literal string
`"Invalid Date"` (ECMA-402 behaviour of `toLocaleDateString`). -/
def jsToLocaleDateString (env : DateEnv) (s : String) : String :=
  match env.parseDate s with
  | some t => env.fmtDate t
  | none => "Invalid Date"

/-- One raw upstream record, restricted to the fields the routes
read or pass through. -/
structure RawItem where
  trackId : Option Int := none
  collectionId : Option Int := none
  artistId : Option Int := none
  trackName : Option String := none
  artistName : Option String := none
  previewUrl : Option String := none
  trackViewUrl : Option String := none
  trackPrice : Option Int := none
  collectionPrice : Option Int := none
  artworkUrl30 : Option String := none
  artworkUrl60 : Option String := none
  artworkUrl100 : Option String := none
  releaseDate : Option String := none
  wrapperType : Option String := none
  kind : Option String := none
  primaryGenreName : Option String := none
  genres : Option (List String) := none
deriving DecidableEq

/-- The enhanced record `{ ...item, artworkUrl, releaseDate,
formattedPrice, mediaType, primaryGenre, uniqueId }`: every raw field
is spread through unchanged and the six derived keys are added, with
`releaseDate` overwritten. -/
structure EnhancedItem where
  trackId : Option Int
  collectionId : Option Int
  artistId : Option Int
  trackName : Option String
  artistName : Option String
  previewUrl : Option String
  trackViewUrl : Option String
  trackPrice : Option Int
  collectionPrice : Option Int
  artworkUrl30 : Option String
  artworkUrl60 : Option String
  artworkUrl100 : Option String
  wrapperType : Option String
  kind : Option String
  primaryGenreName : Option String
  genres : Option (List String)
  artworkUrl : Option String
  releaseDate : Option String
  formattedPrice : String
  mediaType : String
  primaryGenre : String
  uniqueId : Int
deriving DecidableEq

/-- The per-item body of `processItunesResponse`'s `map`, with the
ambient clock value passed in for the `Date.now()` fallback. -/
def enhanceItem (env : DateEnv) (now : Int) (item : RawItem) : EnhancedItem :=
  { trackId := item.trackId
    collectionId := item.collectionId
    artistId := item.artistId
    trackName := item.trackName
    artistName := item.artistName
    previewUrl := item.previewUrl
    trackViewUrl := item.trackViewUrl
    trackPrice := item.trackPrice
    collectionPrice := item.collectionPrice
    artworkUrl30 := item.artworkUrl30
    artworkUrl60 := item.artworkUrl60
    artworkUrl100 := item.artworkUrl100
    wrapperType := item.wrapperType
    kind := item.kind
    primaryGenreName := item.primaryGenreName
    genres := item.genres
    artworkUrl :=
      jsOrS (item.artworkUrl100.map (fun s => jsReplaceFirst s "100x100" "300x300"))
        (jsOrS (item.artworkUrl60.map (fun s => jsReplaceFirst s "60x60" "300x300"))
          (jsOrS (item.artworkUrl30.map (fun s => jsReplaceFirst s "30x30" "300x300"))
            item.artworkUrl100))
    releaseDate :=
      match jsTruthyS item.releaseDate with
      | some s => some (jsToLocaleDateString env s)
      | none => none
    formattedPrice :=
      match jsTruthyNum item.trackPrice with
      | some p => toString p
      | none =>
        match jsTruthyNum item.collectionPrice with
        | some q => toString q
        | none => "N/A"
    mediaType := jsOrDefault item.wrapperType (jsOrDefault item.kind "unknown")
    primaryGenre :=
      jsOrDefault item.primaryGenreName
        (jsOrDefault (item.genres.bind (fun l => l.head?)) "Unknown")
    uniqueId :=
      (jsTruthyNum item.trackId).getD
        ((jsTruthyNum item.collectionId).getD
          ((jsTruthyNum item.artistId).getD now)) }

/-- The raw upstream response body fields the normalizer reads. -/
structure ItunesData where
  resultCount : Option Int := none
  results : Option (List RawItem) := none

structure SearchInfo where
  totalResults : Int
  hasResults : Bool
  searchedAt : String
deriving DecidableEq

structure ProcessedResponse where
  resultCount : Int
  results : List EnhancedItem
  searchInfo : SearchInfo
deriving DecidableEq

/-- `processItunesResponse`, with the ISO timestamp of
`new Date().toISOString()` passed in. -/
def processItunesResponse (env : DateEnv) (now : Int) (iso : String)
    (data : ItunesData) : ProcessedResponse :=
  let results := data.results.getD []
  let enhancedResults := results.map (enhanceItem env now)
  { resultCount := (jsTruthyNum data.resultCount).getD 0
    results := enhancedResults
    searchInfo :=
      { totalResults := (jsTruthyNum data.resultCount).getD 0
        hasResults := decide (0 < (jsTruthyNum data.resultCount).getD 0)
        searchedAt := iso } }

/-! ### The request handler -/

/-- The shape of an axios failure as the catch block reads it:
`error.code` and `error.response?.status`. -/
structure AxiosError where
  code : Option String := none
  status : Option Int := none
  message : String := ""
deriving DecidableEq

/-- Outcome of the single upstream call. -/
inductive UpstreamResult where
  | ok (data : ItunesData)
  | err (e : AxiosError)

/-- The response fields of the handler that the specification talks
about: HTTP status plus the JSON body keys the route writes. -/
structure HandlerResponse where
  status : Int
  success : Bool := false
  error : Option String := none
  message : Option String := none
  errors : Option (List String) := none
  validMediaTypes : Option (List String) := none
  data : Option ProcessedResponse := none
  details : Option String := none
deriving DecidableEq

/-- The catch block of `router.get('/')`: timeout codes first, then
upstream 403, then the remaining upstream 4xx band, else 500 (with
the error detail only in development mode). -/
def catchHandler (dev : Bool) (e : AxiosError) : HandlerResponse :=
  if e.code = some "ECONNABORTED" ∨ e.code = some "ETIMEDOUT" then
    { status := 408
      error := some "Request Timeout"
      message := some "iTunes API request timed out. Please try again." }
  else if e.status = some 403 then
    { status := 503
      error := some "Service Unavailable"
      message := some "iTunes API is currently unavailable. Please try again later." }
  else if (match e.status with
           | some s => decide (400 ≤ s) && decide (s < 500)
           | none => false) then
    { status := 400
      error := some "Bad Request"
      message := some "Invalid request to iTunes API. Please check your search parameters." }
  else
    { status := 500
      error := some "Search Failed"
      message := some "Unable to complete search request. Please try again later."
      details := if dev then some e.message else none }

/-- The orchestration of `router.get('/')`: validate, answer 400 on
failure, otherwise build the URL, perform the single upstream call
and either normalize or map the error. The second component records
the upstream URLs actually requested. -/
def handleSearch (p : SearchParams) (env : DateEnv) (now : Int) (iso : String)
    (dev : Bool) (upstream : String → UpstreamResult) :
    HandlerResponse × List String :=
  if (validateSearchParams p).1 then
    match upstream (buildItunesUrl p) with
    | UpstreamResult.ok data =>
      ({ status := 200
         success := true
         data := some (processItunesResponse env now iso data) }, [buildItunesUrl p])
    | UpstreamResult.err e => (catchHandler dev e, [buildItunesUrl p])
  else
    ({ status := 400
       error := some "Invalid Parameters"
       message := some "One or more search parameters are invalid"
       errors := some (validateSearchParams p).2
       validMediaTypes := some VALID_MEDIA_TYPES }, [])

/-! ### Concrete fixtures used by witnesses and counterexamples -/

/-- A concrete, plausible date runtime: exactly one string parses. -/
def env0 : DateEnv :=
  { parseDate := fun s => if s = "2020-01-01" then some 1577836800000 else none
    fmtDate := fun _ => "1/1/2020" }

/-- A validator input whose `media` is the empty string: supplied,
outside the enumerated set, yet reported as valid with no error. -/
def p2ex : SearchParams := { term := some "x", media := some "" }

/-- A record whose 100x100 artwork field is the empty string next to
a present 60x60 field. -/
def item3ex : RawItem := { artworkUrl100 := some "", artworkUrl60 := some "a/60x60.jpg" }

/-- A record with a zero track price and a non-zero collection price. -/
def item4ex : RawItem := { trackPrice := some 0, collectionPrice := some 5 }

/-- A record with a present but unparseable release date string. -/
def item5ex : RawItem := { releaseDate := some "not-a-date" }

/-- A builder input whose `media` is the empty string while `entity`
is `podcast`. -/
def p6ex : SearchParams :=
  { term := some "x", media := some "", entity := some "podcast" }

/-- Valid input with limit at the rejected lower boundary. -/
def p8a : SearchParams := { term := some "a", limit := some "0" }

/-- Valid input with limit at the accepted lower boundary. -/
def p8b : SearchParams := { term := some "a", limit := some "1" }

/-- A fully valid request input. -/
def pOkFix : SearchParams := { term := some "Adele" }

/-- An invalid request input: the term is missing. -/
def pBadFix : SearchParams := {}

/-- A connection-abort upstream failure. -/
def e408Fix : AxiosError := { code := some "ECONNABORTED" }

/-- A record carrying only a 60x60 artwork field. -/
def item60Fix : RawItem := { artworkUrl60 := some "x/60x60bb.jpg" }

/-- The raw record of Scenario 3 of the specification. -/
def item42 : RawItem :=
  { trackId := some 42, trackName := some "X",
    artworkUrl100 := some ".../100x100bb.jpg" }

/-- The builder input of Scenario 5 of the specification. -/
def p5s : SearchParams :=
  { term := some "x", media := some "music", entity := some "podcast" }

/-- The artwork fallback chain exactly as the specification words it:
the substituted 100x100 URL when that field is present, else the
substituted 60x60 URL when present, else the substituted 30x30 URL
when present, else null. -/
def specArtworkUrl (item : RawItem) : Option String :=
  match item.artworkUrl100 with
  | some s => some (jsReplaceFirst s "100x100" "300x300")
  | none =>
    match item.artworkUrl60 with
    | some s => some (jsReplaceFirst s "60x60" "300x300")
    | none =>
      match item.artworkUrl30 with
      | some s => some (jsReplaceFirst s "30x30" "300x300")
      | none => none

/-! ### Sanity checks of the embedding -/

example : jsParseInt "42abc" = some 42 := by decide
example : jsParseInt "0x10" = some 16 := by decide
example : jsParseInt "  -7" = some (-7) := by decide
example : jsParseInt "x" = none := by decide

example : (validateSearchParams { term := some "Adele" }).1 = true := by decide

example :
    (validateSearchParams { term := some " ", limit := some "abc" }).2 =
      [termMsg, limitMsg] := by decide

example :
    buildItunesUrl { term := some "Adele", media := some "music", limit := some "5" } =
      "https://itunes.apple.com/search?term=Adele&media=music&limit=5&country=US&explicit=Yes" := by
  decide

example :
    (enhanceItem env0 7 { artworkUrl60 := some "x/60x60bb.jpg" }).artworkUrl =
      some "x/300x300bb.jpg" := by decide

/-! ### Helper lemmas -/

lemma strLenZero {s : String} : s.length = 0 ↔ s = "" := by
  cases s with
  | mk l =>
    cases l with
    | nil => simp
    | cons c cs =>
      simp [String.length]
      intro h
      exact absurd (congrArg String.data h) (by simp)

lemma jsTrim_empty : jsTrim "" = "" := by decide

lemma termViolated_iff (p : SearchParams) :
    termViolated p = true ↔
      p.term = none ∨ ∃ s, p.term = some s ∧ jsTrim s = "" := by
  cases h : p.term with
  | none => simp [termViolated, h]
  | some s =>
    simp [termViolated, h, strLenZero]
    rintro rfl
    exact jsTrim_empty

lemma mediaViolated_iff (p : SearchParams) :
    mediaViolated p = true ↔
      ∃ m, p.media = some m ∧ m ≠ "" ∧ m ∉ VALID_MEDIA_TYPES := by
  cases h : p.media with
  | none => simp [mediaViolated, h]
  | some m => simp [mediaViolated, h]

lemma limitViolated_iff (p : SearchParams) :
    limitViolated p = true ↔
      ∃ s, p.limit = some s ∧ s ≠ "" ∧
        (jsParseInt s = none ∨ ∃ n, jsParseInt s = some n ∧ (n < 1 ∨ 200 < n)) := by
  cases h : p.limit with
  | none => simp [limitViolated, h]
  | some s =>
    cases hp : jsParseInt s with
    | none => simp [limitViolated, h, hp]
    | some n => simp [limitViolated, h, hp]

lemma countryRegexTest_iff (c : String) :
    countryRegexTest c = true ↔
      c.length = 2 ∧ ∀ ch ∈ c.toList, 'A' ≤ ch ∧ ch ≤ 'Z' := by
  simp [countryRegexTest, List.all_eq_true]

lemma countryViolated_iff (p : SearchParams) :
    countryViolated p = true ↔
      ∃ c, p.country = some c ∧ c ≠ "" ∧
        ¬(c.length = 2 ∧ ∀ ch ∈ c.toList, 'A' ≤ ch ∧ ch ≤ 'Z') := by
  cases h : p.country with
  | none => simp [countryViolated, h]
  | some c =>
    simp only [countryViolated, h, bne_iff_ne, ne_eq, Bool.and_eq_true,
      Bool.not_eq_true', Option.some.injEq]
    constructor
    · rintro ⟨hne, hf⟩
      refine ⟨c, rfl, hne, fun hp2 => ?_⟩
      rw [(countryRegexTest_iff c).mpr hp2] at hf
      exact Bool.noConfusion hf
    · rintro ⟨c2, hc2, hne, hnp⟩
      subst hc2
      refine ⟨hne, ?_⟩
      cases hreg : countryRegexTest c
      · rfl
      · exact absurd ((countryRegexTest_iff c).mp hreg) hnp

lemma mem_ite_single {b : Bool} {x y : String} :
    x ∈ (if b then [y] else []) ↔ b = true ∧ x = y := by
  cases b <;> simp

lemma msg_tm : termMsg ≠ mediaMsg := by decide
lemma msg_tl : termMsg ≠ limitMsg := by decide
lemma msg_tc : termMsg ≠ countryMsg := by decide
lemma msg_ml : mediaMsg ≠ limitMsg := by decide
lemma msg_mc : mediaMsg ≠ countryMsg := by decide
lemma msg_lc : limitMsg ≠ countryMsg := by decide

lemma mem_validationErrors_term (p : SearchParams) :
    termMsg ∈ validationErrors p ↔ termViolated p = true := by
  simp [validationErrors, mem_ite_single, msg_tm, msg_tl, msg_tc]

lemma mem_validationErrors_media (p : SearchParams) :
    mediaMsg ∈ validationErrors p ↔ mediaViolated p = true := by
  simp [validationErrors, mem_ite_single, msg_tm.symm, msg_ml, msg_mc]

lemma mem_validationErrors_limit (p : SearchParams) :
    limitMsg ∈ validationErrors p ↔ limitViolated p = true := by
  simp [validationErrors, mem_ite_single, msg_tl.symm, msg_ml.symm, msg_lc]

lemma mem_validationErrors_country (p : SearchParams) :
    countryMsg ∈ validationErrors p ↔ countryViolated p = true := by
  simp [validationErrors, mem_ite_single, msg_tc.symm, msg_mc.symm, msg_lc.symm]

lemma validationErrors_nodup (p : SearchParams) :
    (validationErrors p).Nodup := by
  cases h1 : termViolated p <;> cases h2 : mediaViolated p <;>
    cases h3 : limitViolated p <;> cases h4 : countryViolated p <;>
      simp only [validationErrors, h1, h2, h3, h4] <;> decide

lemma validate_valid_iff (p : SearchParams) :
    (validateSearchParams p).1 = true ↔ (validateSearchParams p).2 = [] := by
  simp [validateSearchParams, List.length_eq_zero]

/-! ### Claim theorems -/

/-- C7: on the input `{ term: "Adele", media: "music", limit: "5" }`
the builder produces exactly the upstream URL whose query string is
`term=Adele&media=music&limit=5&country=US&explicit=Yes`, in that
order, with no `entity` parameter: the absent `country` and
`explicit` take the defaults `US` and `Yes`, and the term is trimmed
and percent-encoded. -/
theorem claim_c7_scenario1_url :
    buildItunesUrl { term := some "Adele", media := some "music", limit := some "5" } =
      ITUNES_SEARCH_ENDPOINT ++ "?" ++
        "term=Adele&media=music&limit=5&country=US&explicit=Yes" := by
  decide

/-- C2 counterexample: the input with `term = "x"` and `media = ""`
has a supplied media value lying outside the ten-element enumerated
set, yet the validator reports no error at all (empty-string
parameters are treated as absent by the code). -/
theorem claim_c2_counterexample :
    p2ex.media = some "" ∧ ("" ∈ VALID_MEDIA_TYPES → False) ∧
    (validateSearchParams p2ex).2 = [] ∧ (validateSearchParams p2ex).1 = true := by
  decide

/-- C3 counterexample: on a record whose `artworkUrl100` is present
but empty while `artworkUrl60` is present, the normalizer returns the
upgraded 60x60 URL, not the (empty) substituted `artworkUrl100` that
the claim prescribes for any record with `artworkUrl100` present. -/
theorem claim_c3_counterexample :
    item3ex.artworkUrl100 = some "" ∧
    (enhanceItem env0 0 item3ex).artworkUrl = some "a/300x300.jpg" ∧
    ((enhanceItem env0 0 item3ex).artworkUrl =
        item3ex.artworkUrl100.map (fun s => jsReplaceFirst s "100x100" "300x300") →
      False) := by
  decide

/-- C4 counterexample: on a record with track price `0` and
collection price `5`, the normalizer yields `"5"`, not the
stringified track-level price `"0"` that the claim prescribes
whenever a track-level price is present. -/
theorem claim_c4_counterexample :
    item4ex.trackPrice = some 0 ∧
    (enhanceItem env0 0 item4ex).formattedPrice = "5" ∧
    ((enhanceItem env0 0 item4ex).formattedPrice = toString (0 : Int) → False) := by
  decide

/-- C5 counterexample: on a record whose release date string is
present but does not parse, the normalized `releaseDate` is the
string `"Invalid Date"`, not the `null` the claim prescribes. -/
theorem claim_c5_counterexample :
    item5ex.releaseDate = some "not-a-date" ∧
    env0.parseDate "not-a-date" = none ∧
    (enhanceItem env0 0 item5ex).releaseDate = some "Invalid Date" ∧
    ((enhanceItem env0 0 item5ex).releaseDate = none → False) := by
  decide

/-- C6 counterexample: the validated query with `media = ""` and
`entity = "podcast"` gets an `entity` parameter in the upstream URL
even though `podcast` is not in the entity set mapped from the
supplied media value `""` — the builder consults the set of the
defaulted `"all"` instead. -/
theorem claim_c6_counterexample :
    (validateSearchParams p6ex).1 = true ∧
    p6ex.media = some "" ∧ p6ex.entity = some "podcast" ∧
    ("podcast" ∈ MEDIA_ENTITIES "" → False) ∧
    "entity" ∈ (buildItunesParams p6ex).map Prod.fst := by
  decide

/-- C2 (amended): for every input object the validator is total and
reports one message for every violated rule, not just the first,
where a rule only fires on a supplied, non-empty value: missing or
trim-empty `term`; a non-empty `media` outside the ten-element set; a
non-empty `limit` that does not `parseInt` to an integer in
`[1, 200]`; a non-empty `country` that is not exactly two uppercase
ASCII letters. The error list never repeats a message, and the input
is valid exactly when the list is empty. -/
theorem claim_c2_amended (p : SearchParams) :
    (termMsg ∈ (validateSearchParams p).2 ↔
      p.term = none ∨ ∃ s, p.term = some s ∧ jsTrim s = "")
  ∧ (mediaMsg ∈ (validateSearchParams p).2 ↔
      ∃ m, p.media = some m ∧ m ≠ "" ∧ m ∉ VALID_MEDIA_TYPES)
  ∧ (limitMsg ∈ (validateSearchParams p).2 ↔
      ∃ s, p.limit = some s ∧ s ≠ "" ∧
        (jsParseInt s = none ∨ ∃ n, jsParseInt s = some n ∧ (n < 1 ∨ 200 < n)))
  ∧ (countryMsg ∈ (validateSearchParams p).2 ↔
      ∃ c, p.country = some c ∧ c ≠ "" ∧
        ¬(c.length = 2 ∧ ∀ ch ∈ c.toList, 'A' ≤ ch ∧ ch ≤ 'Z'))
  ∧ (validateSearchParams p).2.Nodup
  ∧ ((validateSearchParams p).1 = true ↔ (validateSearchParams p).2 = []) := by
  refine ⟨?_, ?_, ?_, ?_, validationErrors_nodup p, validate_valid_iff p⟩
  · rw [show (validateSearchParams p).2 = validationErrors p from rfl,
      mem_validationErrors_term, termViolated_iff]
  · rw [show (validateSearchParams p).2 = validationErrors p from rfl,
      mem_validationErrors_media, mediaViolated_iff]
  · rw [show (validateSearchParams p).2 = validationErrors p from rfl,
      mem_validationErrors_limit, limitViolated_iff]
  · rw [show (validateSearchParams p).2 = validationErrors p from rfl,
      mem_validationErrors_country, countryViolated_iff]

/-- C8: on inputs with a valid term and no media or country
violation, the validator rejects limit `"0"` and `"201"` with the
limit-range message and accepts limit `"1"` and `"200"`. -/
theorem claim_c8_limit_boundaries (p : SearchParams)
    (ht : termViolated p = false) (hm : mediaViolated p = false)
    (hc : countryViolated p = false) :
    ((p.limit = some "0" ∨ p.limit = some "201") →
      (validateSearchParams p).1 = false ∧ limitMsg ∈ (validateSearchParams p).2)
  ∧ ((p.limit = some "1" ∨ p.limit = some "200") →
      (validateSearchParams p).1 = true ∧ limitMsg ∉ (validateSearchParams p).2) := by
  constructor
  · rintro (h | h)
    all_goals
      have hl : limitViolated p = true := by
        unfold limitViolated; rw [h]; decide
      simp [validateSearchParams, validationErrors, ht, hm, hc, hl]
  · rintro (h | h)
    all_goals
      have hl : limitViolated p = false := by
        unfold limitViolated; rw [h]; decide
      simp [validateSearchParams, validationErrors, ht, hm, hc, hl]

/-- Boundary witness: the concrete inputs with limit `"0"` and `"1"`
behave as C8 states. -/
theorem claim_c8_limit_boundaries_check :
    ((validateSearchParams p8a).1 = false ∧ limitMsg ∈ (validateSearchParams p8a).2)
  ∧ ((validateSearchParams p8b).1 = true ∧ limitMsg ∉ (validateSearchParams p8b).2) :=
  ⟨(claim_c8_limit_boundaries p8a (by decide) (by decide) (by decide)).1 (Or.inl rfl),
   (claim_c8_limit_boundaries p8b (by decide) (by decide) (by decide)).2 (Or.inl rfl)⟩

lemma string_toList_eq_nil {s : String} (h : s.toList = []) : s = "" := by
  cases s with
  | mk l =>
    cases l with
    | nil => rfl
    | cons c cs => simp [String.toList] at h

lemma rfAux_ne_nil (pat rep : List Char) (hrep : rep ≠ []) :
    ∀ l, l ≠ [] → rfAux pat rep l ≠ [] := by
  intro l hl
  cases l with
  | nil => exact absurd rfl hl
  | cons c rest =>
    unfold rfAux
    split
    · simp [hrep]
    · simp

lemma jsReplaceFirst_ne_empty {s pat rep : String} (hs : s ≠ "") (hrep : rep ≠ "") :
    jsReplaceFirst s pat rep ≠ "" := by
  intro h
  have h2 : rfAux pat.toList rep.toList s.toList = [] := congrArg String.data h
  exact rfAux_ne_nil _ _ (fun hr => hrep (string_toList_eq_nil hr)) _
    (fun hl => hs (string_toList_eq_nil hl)) h2

/-- C3 (amended): for every raw record whose artwork fields, when
present, are non-empty strings, the normalized `artworkUrl` follows
the claimed fallback chain — the substituted `artworkUrl100` when
present, else the substituted `artworkUrl60`, else the substituted
`artworkUrl30`, else null. (An empty-string artwork field is falsy in
the source and falls through the chain, hence the hypotheses.) -/
theorem claim_c3_amended (env : DateEnv) (now : Int) (item : RawItem)
    (h100 : item.artworkUrl100 ≠ some "") (h60 : item.artworkUrl60 ≠ some "")
    (h30 : item.artworkUrl30 ≠ some "") :
    (enhanceItem env now item).artworkUrl = specArtworkUrl item := by
  have hrep : ("300x300" : String) ≠ "" := by decide
  cases ha : item.artworkUrl100 with
  | some s =>
    have hs : s ≠ "" := fun hh => h100 (by rw [ha, hh])
    simp [enhanceItem, specArtworkUrl, ha, jsOrS, jsTruthyS,
      jsReplaceFirst_ne_empty hs hrep]
  | none =>
    cases hb : item.artworkUrl60 with
    | some s =>
      have hs : s ≠ "" := fun hh => h60 (by rw [hb, hh])
      simp [enhanceItem, specArtworkUrl, ha, hb, jsOrS, jsTruthyS,
        jsReplaceFirst_ne_empty hs hrep]
    | none =>
      cases hc : item.artworkUrl30 with
      | some s =>
        have hs : s ≠ "" := fun hh => h30 (by rw [hc, hh])
        simp [enhanceItem, specArtworkUrl, ha, hb, hc, jsOrS, jsTruthyS,
          jsReplaceFirst_ne_empty hs hrep]
      | none =>
        simp [enhanceItem, specArtworkUrl, ha, hb, hc, jsOrS, jsTruthyS]

/-- Witness for C3: a record carrying only a 60x60 artwork field
normalizes to that URL with the size token replaced by 300x300. -/
theorem claim_c3_amended_check :
    (enhanceItem env0 0 item60Fix).artworkUrl = some "x/300x300bb.jpg" := by
  have h := claim_c3_amended env0 0 item60Fix (by decide) (by decide) (by decide)
  rw [h]
  decide

/-- C4 (amended): `formattedPrice` is the stringified track-level
price whenever a present track-level price is non-zero; else the
stringified collection-level price whenever that is present and
non-zero; else the literal `"N/A"` (a zero price is falsy in the
source and is treated as absent). The Scenario 3 record normalizes
with `uniqueId` 42, `artworkUrl` ending in `300x300bb.jpg`,
`formattedPrice` `"N/A"` and `primaryGenre` `"Unknown"`. -/
theorem claim_c4_amended :
    (∀ (env : DateEnv) (now : Int) (item : RawItem),
      (∃ p, item.trackPrice = some p ∧ p ≠ 0 ∧
        (enhanceItem env now item).formattedPrice = toString p)
      ∨ ((item.trackPrice = none ∨ item.trackPrice = some 0) ∧
          ∃ q, item.collectionPrice = some q ∧ q ≠ 0 ∧
            (enhanceItem env now item).formattedPrice = toString q)
      ∨ ((item.trackPrice = none ∨ item.trackPrice = some 0) ∧
          (item.collectionPrice = none ∨ item.collectionPrice = some 0) ∧
          (enhanceItem env now item).formattedPrice = "N/A"))
  ∧ (∀ (env : DateEnv) (now : Int),
      (enhanceItem env now item42).uniqueId = 42
      ∧ (enhanceItem env now item42).artworkUrl = some ".../300x300bb.jpg"
      ∧ (∃ u, (enhanceItem env now item42).artworkUrl = some u ∧
          "300x300bb.jpg".toList.isSuffixOf u.toList = true)
      ∧ (enhanceItem env now item42).formattedPrice = "N/A"
      ∧ (enhanceItem env now item42).primaryGenre = "Unknown") := by
  constructor
  · intro env now item
    cases ht : item.trackPrice with
    | some p =>
      by_cases hp0 : p = 0
      · subst hp0
        cases hcol : item.collectionPrice with
        | some q =>
          by_cases hq0 : q = 0
          · subst hq0
            exact Or.inr (Or.inr ⟨Or.inr rfl, Or.inr rfl,
              by simp [enhanceItem, jsTruthyNum, ht, hcol]⟩)
          · exact Or.inr (Or.inl ⟨Or.inr rfl, q, rfl, hq0,
              by simp [enhanceItem, jsTruthyNum, ht, hcol, hq0]⟩)
        | none =>
          exact Or.inr (Or.inr ⟨Or.inr rfl, Or.inl rfl,
            by simp [enhanceItem, jsTruthyNum, ht, hcol]⟩)
      · exact Or.inl ⟨p, rfl, hp0, by simp [enhanceItem, jsTruthyNum, ht, hp0]⟩
    | none =>
      cases hcol : item.collectionPrice with
      | some q =>
        by_cases hq0 : q = 0
        · subst hq0
          exact Or.inr (Or.inr ⟨Or.inl rfl, Or.inr rfl,
            by simp [enhanceItem, jsTruthyNum, ht, hcol]⟩)
        · exact Or.inr (Or.inl ⟨Or.inl rfl, q, rfl, hq0,
            by simp [enhanceItem, jsTruthyNum, ht, hcol, hq0]⟩)
      | none =>
        exact Or.inr (Or.inr ⟨Or.inl rfl, Or.inl rfl,
          by simp [enhanceItem, jsTruthyNum, ht, hcol]⟩)
  · intro env now
    exact ⟨rfl, rfl, ⟨".../300x300bb.jpg", rfl, by decide⟩, rfl, rfl⟩

/-- C5 (amended): the normalized `releaseDate` is the locale-format
of the parsed date when the raw string is present, non-empty and
parses; the literal `"Invalid Date"` rendering when it is present,
non-empty and does not parse; and null exactly when the raw field is
absent or empty. No case raises. -/
theorem claim_c5_amended (env : DateEnv) (now : Int) (item : RawItem) :
    (∃ s t, item.releaseDate = some s ∧ s ≠ "" ∧ env.parseDate s = some t ∧
        (enhanceItem env now item).releaseDate = some (env.fmtDate t))
  ∨ (∃ s, item.releaseDate = some s ∧ s ≠ "" ∧ env.parseDate s = none ∧
        (enhanceItem env now item).releaseDate = some "Invalid Date")
  ∨ ((item.releaseDate = none ∨ item.releaseDate = some "") ∧
        (enhanceItem env now item).releaseDate = none) := by
  cases h : item.releaseDate with
  | none =>
    exact Or.inr (Or.inr ⟨Or.inl rfl, by simp [enhanceItem, jsTruthyS, h]⟩)
  | some s =>
    by_cases hs : s = ""
    · subst hs
      exact Or.inr (Or.inr ⟨Or.inr rfl, by simp [enhanceItem, jsTruthyS, h]⟩)
    · cases hp : env.parseDate s with
      | some t =>
        exact Or.inl ⟨s, t, rfl, hs, hp,
          by simp [enhanceItem, jsTruthyS, jsToLocaleDateString, h, hs, hp]⟩
      | none =>
        exact Or.inr (Or.inl ⟨s, rfl, hs, hp,
          by simp [enhanceItem, jsTruthyS, jsToLocaleDateString, h, hs, hp]⟩)

/-- C6 (amended): the upstream URL carries an `entity` parameter
exactly when a non-empty entity value is supplied and it belongs to
the entity set mapped from the effective media type — the supplied
media when non-empty, else `"all"`. In particular `entity: "podcast"`
with `media: "music"` yields a URL with no entity parameter. -/
theorem claim_c6_amended :
    (∀ p : SearchParams,
      ("entity" ∈ (buildItunesParams p).map Prod.fst ↔
        ∃ e, p.entity = some e ∧ e ≠ "" ∧
          e ∈ MEDIA_ENTITIES (jsOrDefault p.media "all")))
  ∧ buildItunesUrl p5s =
      "https://itunes.apple.com/search?term=x&media=music&limit=50&country=US&explicit=Yes" := by
  constructor
  · intro p
    cases he : p.entity with
    | none => simp [buildItunesParams, baseParams, jsTruthyS, he]
    | some e =>
      by_cases h0 : e = ""
      · subst h0
        simp [buildItunesParams, baseParams, jsTruthyS, he]
      · by_cases hc : (MEDIA_ENTITIES (jsOrDefault p.media "all")).contains e
        · simp only [buildItunesParams, baseParams, jsTruthyS, he, h0, hc,
            if_neg h0, if_pos rfl]
          simp [List.contains_iff_exists_mem_beq] at hc
          simp [h0]
        · simp [buildItunesParams, baseParams, jsTruthyS, he, h0, hc]
  · decide

/-- C1: when a validated request's single upstream call fails, the
handler's response is the catch-block mapping, and that mapping sends
a connection/timeout code to 408 Request Timeout, an upstream 403 to
503 Service Unavailable, any other upstream status in [400, 500) to
400 Bad Request, and every other caught error to 500 Search Failed. -/
theorem claim_c1_error_mapping (p : SearchParams) (env : DateEnv) (now : Int)
    (iso : String) (dev : Bool) (e : AxiosError)
    (hv : (validateSearchParams p).1 = true) :
    (handleSearch p env now iso dev (fun _ => UpstreamResult.err e)).1 = catchHandler dev e
  ∧ ((e.code = some "ECONNABORTED" ∨ e.code = some "ETIMEDOUT") →
      (catchHandler dev e).status = 408 ∧
        (catchHandler dev e).error = some "Request Timeout")
  ∧ (e.code ≠ some "ECONNABORTED" → e.code ≠ some "ETIMEDOUT" →
      e.status = some 403 →
      (catchHandler dev e).status = 503 ∧
        (catchHandler dev e).error = some "Service Unavailable")
  ∧ (e.code ≠ some "ECONNABORTED" → e.code ≠ some "ETIMEDOUT" →
      e.status ≠ some 403 →
      (∃ s, e.status = some s ∧ 400 ≤ s ∧ s < 500) →
      (catchHandler dev e).status = 400 ∧
        (catchHandler dev e).error = some "Bad Request")
  ∧ (e.code ≠ some "ECONNABORTED" → e.code ≠ some "ETIMEDOUT" →
      e.status ≠ some 403 →
      (¬ ∃ s, e.status = some s ∧ 400 ≤ s ∧ s < 500) →
      (catchHandler dev e).status = 500 ∧
        (catchHandler dev e).error = some "Search Failed") := by
  refine ⟨by simp [handleSearch, hv], ?_, ?_, ?_, ?_⟩
  · intro hcode
    unfold catchHandler
    rw [if_pos hcode]
    exact ⟨rfl, rfl⟩
  · intro h1 h2 h3
    have hnc : ¬(e.code = some "ECONNABORTED" ∨ e.code = some "ETIMEDOUT") := by
      tauto
    unfold catchHandler
    rw [if_neg hnc, if_pos h3]
    exact ⟨rfl, rfl⟩
  · rintro h1 h2 h3 ⟨s, hs, h400, h500⟩
    have hnc : ¬(e.code = some "ECONNABORTED" ∨ e.code = some "ETIMEDOUT") := by
      tauto
    have hb : (match e.status with
               | some s2 => decide (400 ≤ s2) && decide (s2 < 500)
               | none => false) = true := by
      rw [hs]
      simp [h400, h500]
    unfold catchHandler
    rw [if_neg hnc, if_neg h3, if_pos hb]
    exact ⟨rfl, rfl⟩
  · intro h1 h2 h3 h4
    have hnc : ¬(e.code = some "ECONNABORTED" ∨ e.code = some "ETIMEDOUT") := by
      tauto
    have hb : (match e.status with
               | some s2 => decide (400 ≤ s2) && decide (s2 < 500)
               | none => false) = false := by
      cases hst : e.status with
      | none => rfl
      | some s2 =>
        by_cases h400 : 400 ≤ s2
        · have h500 : ¬ s2 < 500 := fun hlt => h4 ⟨s2, hst, h400, hlt⟩
          simp [h500]
        · simp [h400]
    unfold catchHandler
    rw [if_neg hnc, if_neg h3, if_neg (by rw [hb]; exact fun hh => Bool.noConfusion hh)]
    exact ⟨rfl, rfl⟩

/-- Witness for C1: a validated request whose upstream call aborts
with `ECONNABORTED` is answered 408 Request Timeout. -/
theorem claim_c1_error_mapping_check :
    (handleSearch pOkFix env0 0 "" false (fun _ => UpstreamResult.err e408Fix)).1.status = 408
  ∧ (handleSearch pOkFix env0 0 "" false
      (fun _ => UpstreamResult.err e408Fix)).1.error = some "Request Timeout" := by
  have h := claim_c1_error_mapping pOkFix env0 0 "" false e408Fix (by decide)
  have h2 := h.2.1 (Or.inl rfl)
  rw [h.1]
  exact h2

/-- C9: a request that fails validation is answered 400 with the full
error list and triggers no upstream request; a request that passes
validation performs exactly the one upstream call, to the built URL. -/
theorem claim_c9_validation_gates_upstream (p : SearchParams) (env : DateEnv)
    (now : Int) (iso : String) (dev : Bool) (upstream : String → UpstreamResult) :
    ((validateSearchParams p).1 = false →
      handleSearch p env now iso dev upstream =
        ({ status := 400
           error := some "Invalid Parameters"
           message := some "One or more search parameters are invalid"
           errors := some (validateSearchParams p).2
           validMediaTypes := some VALID_MEDIA_TYPES }, []))
  ∧ ((validateSearchParams p).1 = true →
      (handleSearch p env now iso dev upstream).2 = [buildItunesUrl p]) := by
  constructor
  · intro h
    simp [handleSearch, h]
  · intro h
    simp only [handleSearch, h, if_true]
    cases upstream (buildItunesUrl p) <;> rfl

/-- Witness for C9: the concrete request with no term is answered 400
with the term message and an empty upstream-call log. -/
theorem claim_c9_validation_gates_upstream_check :
    handleSearch pBadFix env0 0 "t" false (fun _ => UpstreamResult.err e408Fix) =
      ({ status := 400
         error := some "Invalid Parameters"
         message := some "One or more search parameters are invalid"
         errors := some [termMsg]
         validMediaTypes := some VALID_MEDIA_TYPES }, []) := by
  have h := (claim_c9_validation_gates_upstream pBadFix env0 0 "t" false
    (fun _ => UpstreamResult.err e408Fix)).1 (by decide)
  rw [h]
  decide

/-- C10: normalization maps the upstream result list pointwise and in
order, preserving its length, and each enhanced record carries every
raw field through unchanged; only the six derived keys are added,
`releaseDate` being the one raw key among them that is overwritten. -/
theorem claim_c10_frame (env : DateEnv) (now : Int) (iso : String)
    (data : ItunesData) :
    (processItunesResponse env now iso data).results =
      (data.results.getD []).map (enhanceItem env now)
  ∧ (processItunesResponse env now iso data).results.length =
      (data.results.getD []).length
  ∧ ∀ item : RawItem,
      (enhanceItem env now item).trackId = item.trackId
      ∧ (enhanceItem env now item).collectionId = item.collectionId
      ∧ (enhanceItem env now item).artistId = item.artistId
      ∧ (enhanceItem env now item).trackName = item.trackName
      ∧ (enhanceItem env now item).artistName = item.artistName
      ∧ (enhanceItem env now item).previewUrl = item.previewUrl
      ∧ (enhanceItem env now item).trackViewUrl = item.trackViewUrl
      ∧ (enhanceItem env now item).trackPrice = item.trackPrice
      ∧ (enhanceItem env now item).collectionPrice = item.collectionPrice
      ∧ (enhanceItem env now item).artworkUrl30 = item.artworkUrl30
      ∧ (enhanceItem env now item).artworkUrl60 = item.artworkUrl60
      ∧ (enhanceItem env now item).artworkUrl100 = item.artworkUrl100
      ∧ (enhanceItem env now item).wrapperType = item.wrapperType
      ∧ (enhanceItem env now item).kind = item.kind
      ∧ (enhanceItem env now item).primaryGenreName = item.primaryGenreName
      ∧ (enhanceItem env now item).genres = item.genres := by
  refine ⟨rfl, by simp [processItunesResponse], fun item => ?_⟩
  exact ⟨rfl, rfl, rfl, rfl, rfl, rfl, rfl, rfl, rfl, rfl, rfl, rfl, rfl, rfl,
    rfl, rfl⟩

end ItunesSearch
